import Mathlib

/-!
# Shallow embedding of the QtGame combat-simulation engine

A Lean 4 model of the simulation core of Justin0828/QtGame
(`Vector2D`, `Weapon`/`Projectile`, `Item`, `Player`, `GameEngine`),
translated definition-by-definition from the C++ sources, together with
theorems settling the specification claims about it.

Modelling conventions:
* C++ `double` is modelled as `ℚ` (exact arithmetic; none of the verified
  properties depends on IEEE rounding).
* Wall-clock reads (`std::chrono::steady_clock::now()`, in milliseconds)
  are modelled by threading an explicit `now : Int` parameter into every
  function whose C++ body samples the clock.
* The two comparisons the C++ performs on a square root
  (`Vector2D::distanceTo(...) <= attackRange` and
  `Vector2D::length() <= radius` in the circle-rect test) are embedded
  square-free as `distSq ≤ r^2`: for `r ≥ 0`, `Real.sqrt d ≤ r ↔ d ≤ r^2`,
  and both ranges and radii in the program are nonnegative constants.
  This keeps every predicate decidable.
* `QColor` fields are dropped: the engine never reads them.
-/

namespace QtGame

/-! ## GameConfig.h -/

namespace GameConfig

def WINDOW_WIDTH : ℚ := 1200
def WINDOW_HEIGHT : ℚ := 800
def GRAVITY : ℚ := 800
def GROUND_LEVEL : ℚ := 750
def FRICTION : ℚ := 8/10
def PLAYER_SPEED : ℚ := 300
def PLAYER_JUMP_SPEED : ℚ := -500
def PLAYER_MAX_HP : Int := 100
def PLAYER_WIDTH : ℚ := 40
def PLAYER_HEIGHT : ℚ := 60
def ICE_SPEED_MULTIPLIER : ℚ := 15/10
def BULLET_SPEED : ℚ := 600
def BALL_THROW_SPEED : ℚ := 400
def FIST_DAMAGE : Int := 15
def KNIFE_DAMAGE : Int := 25
def BALL_DAMAGE : Int := 35
def RIFLE_DAMAGE : Int := 20
def SNIPER_DAMAGE : Int := 60
def RIFLE_AMMO : Int := 30
def SNIPER_AMMO : Int := 5
def BALL_COUNT : Int := 3
def FIST_COOLDOWN : Int := 800
def KNIFE_COOLDOWN : Int := 600
def BALL_COOLDOWN : Int := 1000
def RIFLE_COOLDOWN : Int := 150
def SNIPER_COOLDOWN : Int := 2000
def BANDAGE_HEAL : Int := 20
def MEDKIT_HEAL : Int := 100
def ADRENALINE_HEAL : Int := 5
def ADRENALINE_DURATION : Int := 10000
def ADRENALINE_SPEED_MULTIPLIER : ℚ := 13/10

/-- Rational stand-in for the double `cos(-30° · π/180)` used only in
`BallWeapon::attack` (the exact value `√3/2` is irrational, hence not
representable in the `ℚ` model; no claim depends on this constant). -/
def BALL_COS_ANGLE : ℚ := 8660254037844387 / 10000000000000000

/-- `sin(-30° · π/180) = -1/2`, exact. -/
def BALL_SIN_ANGLE : ℚ := -1/2

end GameConfig

/-! ## Vector2D -/

/-- `Vector2D` from Vector2D.h: a pair of doubles, modelled over `ℚ`. -/
structure Vector2D where
  x : ℚ
  y : ℚ
deriving DecidableEq, Repr

namespace Vector2D

def add (a b : Vector2D) : Vector2D := ⟨a.x + b.x, a.y + b.y⟩

def sub (a b : Vector2D) : Vector2D := ⟨a.x - b.x, a.y - b.y⟩

def smul (a : Vector2D) (s : ℚ) : Vector2D := ⟨a.x * s, a.y * s⟩

/-- `operator/`: division by zero yields the zero vector. -/
def sdiv (a : Vector2D) (s : ℚ) : Vector2D :=
  if s ≠ 0 then ⟨a.x / s, a.y / s⟩ else ⟨0, 0⟩

/-- `lengthSquared()`. (`length()` is its square root; comparisons of
`length` against a nonnegative bound are embedded via this square.) -/
def lengthSquared (a : Vector2D) : ℚ := a.x * a.x + a.y * a.y

/-- Square of `distanceTo(other)` (= `(*this - other).length()`). -/
def distSqTo (a b : Vector2D) : ℚ := (a.sub b).lengthSquared

end Vector2D

/-! ## Weapon.h / Weapon.cpp -/

inductive WeaponType where
  | FIST | KNIFE | BALL | RIFLE | SNIPER
deriving DecidableEq, Repr

inductive AmmoType where
  | MELEE | BULLET | THROWN
deriving DecidableEq, Repr

/-- `Projectile`: `m_startTime` is the clock value at construction. -/
structure Projectile where
  position : Vector2D
  velocity : Vector2D
  damage : Int
  type : AmmoType
  ownerId : Int
  radius : ℚ
  startTime : Int
deriving DecidableEq, Repr

namespace Projectile

def MAX_LIFETIME : Int := 5000

/-- The `Projectile` constructor: radius is chosen from the ammo type. -/
def mk' (startPos velocity : Vector2D) (damage : Int) (type : AmmoType)
    (ownerId : Int) (now : Int) : Projectile :=
  { position := startPos, velocity := velocity, damage := damage,
    type := type, ownerId := ownerId,
    radius := match type with
      | AmmoType.BULLET => 3
      | AmmoType.THROWN => 8
      | AmmoType.MELEE => 5,
    startTime := now }

/-- `Projectile::update`: integrate position, then gravity for thrown kind. -/
def update (p : Projectile) (deltaTime : ℚ) : Projectile :=
  let p := { p with position := p.position.add (p.velocity.smul deltaTime) }
  if p.type = AmmoType.THROWN then
    { p with velocity := ⟨p.velocity.x, p.velocity.y + GameConfig.GRAVITY * deltaTime⟩ }
  else p

/-- `Projectile::isValid`: false once older than `MAX_LIFETIME` or outside
the window rectangle expanded by 100 units on every side. -/
def isValid (p : Projectile) (now : Int) : Bool :=
  if now - p.startTime > MAX_LIFETIME then false
  else if p.position.x < -100 ∨ p.position.x > GameConfig.WINDOW_WIDTH + 100 ∨
          p.position.y < -100 ∨ p.position.y > GameConfig.WINDOW_HEIGHT + 100 then false
  else true

end Projectile

/-- `Weapon` base-class state. The attack range is the per-subclass
`getAttackRange()` override, recorded as a field indexed by the type. -/
structure Weapon where
  type : WeaponType
  ammo : Int
  damage : Int
  cooldown : Int
  lastAttackTime : Int
deriving DecidableEq, Repr

namespace Weapon

/-- The `Weapon(WeaponType)` constructor (`m_lastAttackTime = 0`). -/
def mk' (type : WeaponType) : Weapon :=
  match type with
  | WeaponType.FIST =>
    ⟨type, -1, GameConfig.FIST_DAMAGE, GameConfig.FIST_COOLDOWN, 0⟩
  | WeaponType.KNIFE =>
    ⟨type, -1, GameConfig.KNIFE_DAMAGE, GameConfig.KNIFE_COOLDOWN, 0⟩
  | WeaponType.BALL =>
    ⟨type, GameConfig.BALL_COUNT, GameConfig.BALL_DAMAGE, GameConfig.BALL_COOLDOWN, 0⟩
  | WeaponType.RIFLE =>
    ⟨type, GameConfig.RIFLE_AMMO, GameConfig.RIFLE_DAMAGE, GameConfig.RIFLE_COOLDOWN, 0⟩
  | WeaponType.SNIPER =>
    ⟨type, GameConfig.SNIPER_AMMO, GameConfig.SNIPER_DAMAGE, GameConfig.SNIPER_COOLDOWN, 0⟩

/-- `hasAmmo()`: `m_ammo > 0 || m_ammo == -1` (−1 means infinite ammo). -/
def hasAmmo (w : Weapon) : Bool := w.ammo > 0 ∨ w.ammo = -1

/-- `canAttack()`: ammo available and cooldown elapsed. -/
def canAttack (w : Weapon) (now : Int) : Bool :=
  if ¬w.hasAmmo then false
  else now - w.lastAttackTime ≥ w.cooldown

/-- `consumeAmmo()`: decrement only strictly positive counts. -/
def consumeAmmo (w : Weapon) : Weapon :=
  if w.ammo > 0 then { w with ammo := w.ammo - 1 } else w

/-- `resetCooldown()`: stamp the current clock. -/
def resetCooldown (w : Weapon) (now : Int) : Weapon :=
  { w with lastAttackTime := now }

/-- Per-subclass `getAttackRange()` overrides. -/
def getAttackRange (w : Weapon) : ℚ :=
  match w.type with
  | WeaponType.FIST => 50
  | WeaponType.KNIFE => 60
  | WeaponType.BALL => 400
  | WeaponType.RIFLE => 600
  | WeaponType.SNIPER => 800

end Weapon

/-! ## Player.h / Player.cpp -/

inductive PlayerState where
  | STANDING | MOVING | JUMPING | CROUCHING | ATTACKING
deriving DecidableEq, Repr

inductive TerrainType where
  | GROUND | GRASS | ICE
deriving DecidableEq, Repr

structure Player where
  position : Vector2D
  velocity : Vector2D
  state : PlayerState
  isPlayerOne : Bool
  facingRight : Bool
  hp : Int
  isMovingLeft : Bool
  isMovingRight : Bool
  isCrouching : Bool
  isGrounded : Bool
  currentTerrain : TerrainType
  weapon : Weapon
  lastAttackTime : Int
  hasAdrenaline : Bool
  adrenalineEndTime : Int
  lastAdrenalineHeal : Int
deriving DecidableEq, Repr

namespace Player

/-- `getWidth()` (constant). -/
def width (_ : Player) : ℚ := GameConfig.PLAYER_WIDTH

/-- `getHeight()` (constant). -/
def height (_ : Player) : ℚ := GameConfig.PLAYER_HEIGHT

/-- The `Player` constructor: full hp, standing, facing right, default
fist weapon, all timers zero. -/
def mk' (startPos : Vector2D) (isPlayerOne : Bool) : Player :=
  { position := startPos, velocity := ⟨0, 0⟩, state := PlayerState.STANDING,
    isPlayerOne := isPlayerOne, facingRight := true,
    hp := GameConfig.PLAYER_MAX_HP,
    isMovingLeft := false, isMovingRight := false,
    isCrouching := false, isGrounded := false,
    currentTerrain := TerrainType.GROUND,
    weapon := Weapon.mk' WeaponType.FIST,
    lastAttackTime := 0,
    hasAdrenaline := false, adrenalineEndTime := 0, lastAdrenalineHeal := 0 }

def moveLeft (p : Player) : Player :=
  if p.isCrouching then p
  else { p with isMovingLeft := true, facingRight := false }

def moveRight (p : Player) : Player :=
  if p.isCrouching then p
  else { p with isMovingRight := true, facingRight := true }

def stopMoving (p : Player) : Player :=
  { p with isMovingLeft := false, isMovingRight := false }

def jump (p : Player) : Player :=
  if p.isCrouching then p
  else if ¬p.isGrounded then p
  else { p with velocity := ⟨p.velocity.x, GameConfig.PLAYER_JUMP_SPEED⟩,
                isGrounded := false }

def crouch (p : Player) : Player :=
  if ¬p.isGrounded then p
  else { p with isCrouching := true, velocity := ⟨0, p.velocity.y⟩ }

def stopCrouching (p : Player) : Player :=
  { p with isCrouching := false }

/-- `Player::attack`: no-op within 100 ms of the previous call; otherwise
stamps the call time and the transient `ATTACKING` label. (Damage is the
orchestrator's job.) -/
def attack (p : Player) (now : Int) : Player :=
  if now - p.lastAttackTime < 100 then p
  else { p with lastAttackTime := now, state := PlayerState.ATTACKING }

/-- `takeDamage`: subtract, then clamp below at 0. -/
def takeDamage (p : Player) (damage : Int) : Player :=
  { p with hp := max 0 (p.hp - damage) }

/-- `heal`: add, then clamp above at `PLAYER_MAX_HP`. -/
def heal (p : Player) (healAmount : Int) : Player :=
  { p with hp := min GameConfig.PLAYER_MAX_HP (p.hp + healAmount) }

/-- `applyAdrenaline(duration)`: (re)start the buff from the current clock. -/
def applyAdrenaline (p : Player) (duration : Int) (now : Int) : Player :=
  { p with hasAdrenaline := true,
           adrenalineEndTime := now + duration,
           lastAdrenalineHeal := now }

def setTerrainType (p : Player) (terrain : TerrainType) : Player :=
  { p with currentTerrain := terrain }

def isAlive (p : Player) : Bool := p.hp > 0

/-- `isInvisible()`: crouching on grass. -/
def isInvisible (p : Player) : Bool :=
  p.currentTerrain = TerrainType.GRASS ∧ p.isCrouching

/-- `getCurrentMoveSpeed()`: base speed, ×1.5 on ice, ×1.3 on adrenaline. -/
def getCurrentMoveSpeed (p : Player) : ℚ :=
  let baseSpeed := GameConfig.PLAYER_SPEED
  let baseSpeed :=
    if p.currentTerrain = TerrainType.ICE then
      baseSpeed * GameConfig.ICE_SPEED_MULTIPLIER
    else baseSpeed
  if p.hasAdrenaline then baseSpeed * GameConfig.ADRENALINE_SPEED_MULTIPLIER
  else baseSpeed

/-- `Player::updatePhysics`: horizontal movement / friction, gravity,
position integration, window-edge clamping, world-ground snap. -/
def updatePhysics (p : Player) (deltaTime : ℚ) : Player :=
  let p :=
    if ¬p.isCrouching then
      let moveSpeed := p.getCurrentMoveSpeed
      if p.isMovingLeft then { p with velocity := ⟨-moveSpeed, p.velocity.y⟩ }
      else if p.isMovingRight then { p with velocity := ⟨moveSpeed, p.velocity.y⟩ }
      else
        let vx := p.velocity.x * GameConfig.FRICTION
        let vx := if |vx| < 10 then 0 else vx
        { p with velocity := ⟨vx, p.velocity.y⟩ }
    else p
  let p :=
    if ¬p.isGrounded then
      { p with velocity := ⟨p.velocity.x, p.velocity.y + GameConfig.GRAVITY * deltaTime⟩ }
    else p
  let p := { p with position := p.position.add (p.velocity.smul deltaTime) }
  let p :=
    if p.position.x < 0 then
      { p with position := ⟨0, p.position.y⟩, velocity := ⟨0, p.velocity.y⟩ }
    else p
  let p :=
    if p.position.x > GameConfig.WINDOW_WIDTH - p.width then
      { p with position := ⟨GameConfig.WINDOW_WIDTH - p.width, p.position.y⟩,
               velocity := ⟨0, p.velocity.y⟩ }
    else p
  if p.position.y ≥ GameConfig.GROUND_LEVEL - p.height then
    { p with position := ⟨p.position.x, GameConfig.GROUND_LEVEL - p.height⟩,
             velocity := ⟨p.velocity.x, 0⟩, isGrounded := true }
  else p

/-- `Player::updateAdrenalineEffect`: expire the buff at its end time,
otherwise heal a fixed amount once a second. -/
def updateAdrenalineEffect (p : Player) (now : Int) : Player :=
  if ¬p.hasAdrenaline then p
  else if now ≥ p.adrenalineEndTime then { p with hasAdrenaline := false }
  else if now - p.lastAdrenalineHeal ≥ 1000 then
    { (p.heal GameConfig.ADRENALINE_HEAL) with lastAdrenalineHeal := now }
  else p

/-- `Player::update`: physics, adrenaline, (no-op weapon update), then
recompute the state label from the current flags. -/
def update (p : Player) (deltaTime : ℚ) (now : Int) : Player :=
  let p := p.updatePhysics deltaTime
  let p := p.updateAdrenalineEffect now
  if p.isCrouching then { p with state := PlayerState.CROUCHING }
  else if ¬p.isGrounded then { p with state := PlayerState.JUMPING }
  else if p.isMovingLeft ∨ p.isMovingRight then { p with state := PlayerState.MOVING }
  else { p with state := PlayerState.STANDING }

end Player

/-! ### The per-subclass `attack` overrides (Weapon.cpp)

Each C++ weapon subclass overrides `attack(Player*, targetPos)`; the object's
dynamic class always matches `m_type`, so the model dispatches on the type
tag. Each returns the spawned projectile (if any) and the updated weapon
state; `targetPos` is never read by any implementation. -/

namespace Weapon

/-- `FistWeapon::attack` / `KnifeWeapon::attack`: melee, no projectile;
gate on `canAttack`, then just reset the cooldown. -/
def meleeAttack (w : Weapon) (now : Int) : Option Projectile × Weapon :=
  if ¬w.canAttack now then (none, w)
  else (none, w.resetCooldown now)

/-- `BallWeapon::attack`: consume ammo, reset cooldown, spawn a thrown
projectile at a fixed launch angle in the facing direction. -/
def ballAttack (w : Weapon) (player : Player) (now : Int) :
    Option Projectile × Weapon :=
  if ¬w.canAttack now then (none, w)
  else
    let w := w.consumeAmmo
    let w := w.resetCooldown now
    let playerPos := player.position
    let startPos := playerPos.add
      ⟨if player.facingRight then player.width * (8/10)
       else player.width * (2/10) - 20,
       player.height * (3/10)⟩
    let direction : ℚ := if player.facingRight then 1 else -1
    let velocity : Vector2D :=
      ⟨GameConfig.BALL_THROW_SPEED * GameConfig.BALL_COS_ANGLE * direction,
       GameConfig.BALL_THROW_SPEED * GameConfig.BALL_SIN_ANGLE⟩
    (some (Projectile.mk' startPos velocity w.damage AmmoType.THROWN
            (if player.isPlayerOne then 0 else 1) now), w)

/-- `RifleWeapon::attack`: consume ammo, reset cooldown, spawn a flat
horizontal bullet. -/
def rifleAttack (w : Weapon) (player : Player) (now : Int) :
    Option Projectile × Weapon :=
  if ¬w.canAttack now then (none, w)
  else
    let w := w.consumeAmmo
    let w := w.resetCooldown now
    let playerPos := player.position
    let startPos := playerPos.add
      ⟨if player.facingRight then player.width else -5,
       player.height * (4/10)⟩
    let velocity : Vector2D :=
      ⟨GameConfig.BULLET_SPEED * (if player.facingRight then 1 else -1), 0⟩
    (some (Projectile.mk' startPos velocity w.damage AmmoType.BULLET
            (if player.isPlayerOne then 0 else 1) now), w)

/-- `SniperWeapon::attack`: like the rifle, 1.5× bullet speed. -/
def sniperAttack (w : Weapon) (player : Player) (now : Int) :
    Option Projectile × Weapon :=
  if ¬w.canAttack now then (none, w)
  else
    let w := w.consumeAmmo
    let w := w.resetCooldown now
    let playerPos := player.position
    let startPos := playerPos.add
      ⟨if player.facingRight then player.width else -5,
       player.height * (4/10)⟩
    let velocity : Vector2D :=
      ⟨GameConfig.BULLET_SPEED * (15/10) * (if player.facingRight then 1 else -1), 0⟩
    (some (Projectile.mk' startPos velocity w.damage AmmoType.BULLET
            (if player.isPlayerOne then 0 else 1) now), w)

/-- Virtual dispatch of `attack` over the weapon's dynamic type. -/
def attack (w : Weapon) (player : Player) (now : Int) :
    Option Projectile × Weapon :=
  match w.type with
  | WeaponType.FIST => w.meleeAttack now
  | WeaponType.KNIFE => w.meleeAttack now
  | WeaponType.BALL => w.ballAttack player now
  | WeaponType.RIFLE => w.rifleAttack player now
  | WeaponType.SNIPER => w.sniperAttack player now

end Weapon

/-! ## Item.h / Item.cpp -/

inductive ItemType where
  | WEAPON_KNIFE | WEAPON_BALL | WEAPON_RIFLE | WEAPON_SNIPER
  | BANDAGE | MEDKIT | ADRENALINE
deriving DecidableEq, Repr

/-- `Item` state. In C++ each `ItemType` is constructed with exactly one
matching `Item` subclass (see `GameEngine::spawnRandomItem`), so the model
keys the pickup behaviour on the type tag. -/
structure Item where
  type : ItemType
  position : Vector2D
  velocity : Vector2D
  width : ℚ
  height : ℚ
  isGrounded : Bool
  validFlag : Bool
  spawnTime : Int
deriving DecidableEq, Repr

namespace Item

def ITEM_LIFETIME : Int := 30000

/-- The `Item` constructor: per-type size, initial downward velocity 200. -/
def mk' (type : ItemType) (position : Vector2D) (now : Int) : Item :=
  let (w, h) : ℚ × ℚ :=
    match type with
    | ItemType.WEAPON_KNIFE => (25, 8)
    | ItemType.WEAPON_BALL => (16, 16)
    | ItemType.WEAPON_RIFLE => (40, 12)
    | ItemType.WEAPON_SNIPER => (50, 15)
    | ItemType.BANDAGE => (20, 15)
    | ItemType.MEDKIT => (25, 20)
    | ItemType.ADRENALINE => (15, 25)
  { type := type, position := position, velocity := ⟨0, 200⟩,
    width := w, height := h, isGrounded := false, validFlag := true,
    spawnTime := now }

/-- `Item::update`: free-fall (gravity + integration) while not grounded. -/
def update (it : Item) (deltaTime : ℚ) : Item :=
  if ¬it.isGrounded then
    let vel : Vector2D := ⟨it.velocity.x, it.velocity.y + GameConfig.GRAVITY * deltaTime⟩
    { it with velocity := vel, position := it.position.add (vel.smul deltaTime) }
  else it

/-- `Item::isValid`: the valid flag, and lifetime not yet exceeded. -/
def isValid (it : Item) (now : Int) : Bool :=
  if ¬it.validFlag then false
  else now - it.spawnTime < ITEM_LIFETIME

/-- `WeaponItem::createWeapon`: a weapon for the four weapon item types. -/
def createWeapon : ItemType → Option Weapon
  | ItemType.WEAPON_KNIFE => some (Weapon.mk' WeaponType.KNIFE)
  | ItemType.WEAPON_BALL => some (Weapon.mk' WeaponType.BALL)
  | ItemType.WEAPON_RIFLE => some (Weapon.mk' WeaponType.RIFLE)
  | ItemType.WEAPON_SNIPER => some (Weapon.mk' WeaponType.SNIPER)
  | _ => none

/-- The `onPickup` overrides: returns (success, updated item, updated
player). Weapon items replace the player's weapon; bandage/medkit heal
only below full hp; adrenaline always (re)starts the buff. -/
def onPickup (it : Item) (player : Player) (now : Int) :
    Bool × Item × Player :=
  match it.type with
  | ItemType.WEAPON_KNIFE | ItemType.WEAPON_BALL
  | ItemType.WEAPON_RIFLE | ItemType.WEAPON_SNIPER =>
    match createWeapon it.type with
    | some w => (true, { it with validFlag := false }, { player with weapon := w })
    | none => (false, it, player)
  | ItemType.BANDAGE =>
    if player.hp < GameConfig.PLAYER_MAX_HP then
      (true, { it with validFlag := false }, player.heal GameConfig.BANDAGE_HEAL)
    else (false, it, player)
  | ItemType.MEDKIT =>
    if player.hp < GameConfig.PLAYER_MAX_HP then
      (true, { it with validFlag := false }, player.heal GameConfig.MEDKIT_HEAL)
    else (false, it, player)
  | ItemType.ADRENALINE =>
    (true, { it with validFlag := false },
     player.applyAdrenaline GameConfig.ADRENALINE_DURATION now)

end Item

/-- `Player::pickupItem`: reject invalid items, otherwise defer to the
item's own `onPickup`. -/
def Player.pickupItem (p : Player) (it : Item) (now : Int) :
    Bool × Item × Player :=
  if ¬it.isValid now then (false, it, p)
  else it.onPickup p now

/-! ## GameEngine.h / GameEngine.cpp -/

inductive GameState where
  | PLAYING | PAUSED | GAME_OVER
deriving DecidableEq, Repr

/-- A static platform (`GameEngine.h`); colors dropped. -/
structure Platform where
  position : Vector2D
  width : ℚ
  height : ℚ
  type : TerrainType
deriving DecidableEq, Repr

/-- The ten bound keys of `GameConfig.h` (`Qt::Key` constants, all
distinct), named by the command they map to. -/
inductive GKey where
  | p1Left | p1Right | p1Jump | p1Crouch | p1Fire
  | p2Left | p2Right | p2Jump | p2Crouch | p2Fire
deriving DecidableEq, Repr

/-- The engine state. `itemTimerActive` models whether `m_itemDropTimer`
is running (the Qt timer object itself is plumbing). -/
structure GameEngine where
  gameState : GameState
  winner : Int
  player1 : Player
  player2 : Player
  projectiles : List Projectile
  items : List Item
  platforms : List Platform
  itemTimerActive : Bool
deriving DecidableEq, Repr

namespace GameEngine

/-- `checkRectCollision`: open-interval AABB overlap. -/
def checkRectCollision (pos1 size1 pos2 size2 : Vector2D) : Bool :=
  pos1.x < pos2.x + size2.x ∧
  pos1.x + size1.x > pos2.x ∧
  pos1.y < pos2.y + size2.y ∧
  pos1.y + size1.y > pos2.y

/-- `checkCircleRectCollision`: clamp the circle center into the box and
compare the distance with the radius (embedded as squares; the radius is
nonnegative in every call site). -/
def checkCircleRectCollision (circlePos : Vector2D) (radius : ℚ)
    (rectPos rectSize : Vector2D) : Bool :=
  let closestX := max rectPos.x (min circlePos.x (rectPos.x + rectSize.x))
  let closestY := max rectPos.y (min circlePos.y (rectPos.y + rectSize.y))
  (Vector2D.lengthSquared ⟨circlePos.x - closestX, circlePos.y - closestY⟩) ≤ radius ^ 2

/-- `createPlatforms`: the fixed 7-platform layout. -/
def createPlatforms : List Platform :=
  [ ⟨⟨0, GameConfig.GROUND_LEVEL⟩, GameConfig.WINDOW_WIDTH, 50, TerrainType.GROUND⟩,
    ⟨⟨450, 600⟩, 300, 20, TerrainType.GRASS⟩,
    ⟨⟨100, 500⟩, 200, 20, TerrainType.ICE⟩,
    ⟨⟨900, 500⟩, 200, 20, TerrainType.GROUND⟩,
    ⟨⟨350, 400⟩, 400, 20, TerrainType.ICE⟩,
    ⟨⟨50, 300⟩, 150, 20, TerrainType.GRASS⟩,
    ⟨⟨1000, 300⟩, 150, 20, TerrainType.GRASS⟩ ]

/-- `initialize()` (renamed: `initialize` is a Lean keyword): fresh players at the fixed start positions, fresh
platforms, state `PLAYING`, no winner, empty projectile/item lists. -/
def initEngine (e : GameEngine) : GameEngine :=
  { e with
    player1 := Player.mk' ⟨200, GameConfig.GROUND_LEVEL - GameConfig.PLAYER_HEIGHT⟩ true,
    player2 := Player.mk' ⟨1000, GameConfig.GROUND_LEVEL - GameConfig.PLAYER_HEIGHT⟩ false,
    platforms := createPlatforms,
    gameState := GameState.PLAYING,
    winner := 0,
    projectiles := [],
    items := [] }

/-- `startGame()`: force state to `PLAYING` and start the drop timer. -/
def startGame (e : GameEngine) : GameEngine :=
  let e := if e.gameState ≠ GameState.PLAYING
           then { e with gameState := GameState.PLAYING } else e
  { e with itemTimerActive := true }

/-- `togglePause()`. -/
def togglePause (e : GameEngine) : GameEngine :=
  if e.gameState = GameState.PLAYING then
    { e with gameState := GameState.PAUSED, itemTimerActive := false }
  else if e.gameState = GameState.PAUSED then
    { e with gameState := GameState.PLAYING, itemTimerActive := true }
  else e

/-- `resetGame()`. -/
def resetGame (e : GameEngine) : GameEngine := e.initEngine.startGame

/-- `getPlayerTerrainType`: terrain of the first platform the (grounded)
player stands on, within the vertical tolerance band; plain ground
otherwise or while airborne. -/
def getPlayerTerrainType (platforms : List Platform) (player : Player) :
    TerrainType :=
  if ¬player.isGrounded then TerrainType.GROUND
  else
    match platforms.find? (fun platform =>
      let playerBottom := player.position.y + player.height
      decide (player.position.x + player.width > platform.position.x ∧
              player.position.x < platform.position.x + platform.width ∧
              playerBottom ≥ platform.position.y - 5 ∧
              playerBottom ≤ platform.position.y + platform.height + 15)) with
    | some platform => platform.type
    | none => TerrainType.GROUND

/-- The loop body of `checkPlayerPlatformCollision`. The C++ loop tests
every platform against `playerPos`/`playerVel` locals captured once
before the loop, while its `setPosition`/`setVelocity` calls mutate the
player; the captured values are therefore passed separately. -/
def platformCollideStep (playerPos playerSize playerVel : Vector2D)
    (acc : Player × Bool) (platform : Platform) : Player × Bool :=
  let (player, nowGrounded) := acc
  let platformPos := platform.position
  let platformSize : Vector2D := ⟨platform.width, platform.height⟩
  if checkRectCollision playerPos playerSize platformPos platformSize then
    if playerVel.y > 0 ∧ playerPos.y < platformPos.y then
      ({ player with position := ⟨playerPos.x, platformPos.y - playerSize.y⟩,
                     velocity := ⟨playerVel.x, 0⟩ }, true)
    else if playerVel.y < 0 ∧ playerPos.y > platformPos.y then
      ({ player with position := ⟨playerPos.x, platformPos.y + platformSize.y⟩,
                     velocity := ⟨playerVel.x, 0⟩ }, nowGrounded)
    else
      let player :=
        if playerVel.x > 0 then
          { player with position := ⟨platformPos.x - playerSize.x, playerPos.y⟩ }
        else if playerVel.x < 0 then
          { player with position := ⟨platformPos.x + platformSize.x, playerPos.y⟩ }
        else player
      ({ player with velocity := ⟨0, playerVel.y⟩ }, nowGrounded)
  else (player, nowGrounded)

/-- `checkPlayerPlatformCollision`: directional platform response, then
the standing-band / world-ground groundedness check, then terrain
(re)assignment — airborne players are forced back to plain ground. -/
def checkPlayerPlatformCollision (platforms : List Platform)
    (player : Player) : Player :=
  let playerPos := player.position
  let playerSize : Vector2D := ⟨player.width, player.height⟩
  let playerVel := player.velocity
  let (player, nowGrounded) :=
    platforms.foldl (platformCollideStep playerPos playerSize playerVel)
      (player, false)
  let nowGrounded :=
    if ¬nowGrounded then
      if playerPos.y + playerSize.y ≥ GameConfig.GROUND_LEVEL - 5 then true
      else platforms.any (fun platform =>
        decide (playerPos.x + playerSize.x > platform.position.x ∧
                playerPos.x < platform.position.x + platform.width ∧
                playerPos.y + playerSize.y ≥ platform.position.y ∧
                playerPos.y + playerSize.y ≤ platform.position.y + 10))
    else nowGrounded
  if nowGrounded then
    let player :=
      if ¬player.isGrounded ∧ playerVel.y > 0 then
        { player with velocity := ⟨playerVel.x, 0⟩ }
      else player
    let player := { player with isGrounded := true }
    player.setTerrainType (getPlayerTerrainType platforms player)
  else
    (({ player with isGrounded := false }) : Player).setTerrainType TerrainType.GROUND

/-- `GameEngine::updatePhysics`: platform collision for both players. -/
def updatePhysics (e : GameEngine) : GameEngine :=
  { e with player1 := checkPlayerPlatformCollision e.platforms e.player1,
           player2 := checkPlayerPlatformCollision e.platforms e.player2 }

/-- `GameEngine::updateProjectiles`: advance all, then drop the invalid. -/
def updateProjectiles (e : GameEngine) (deltaTime : ℚ) (now : Int) :
    GameEngine :=
  let advanced := e.projectiles.map (fun p => p.update deltaTime)
  { e with projectiles := advanced.filter (fun p => p.isValid now) }

/-- The per-item body of `GameEngine::updateItems`: advance, then snap
onto the first overlapping platform. -/
def updateItemStep (platforms : List Platform) (deltaTime : ℚ)
    (it : Item) : Item :=
  let it := it.update deltaTime
  let itemPos := it.position
  let itemSize : Vector2D := ⟨it.width, it.height⟩
  match platforms.find? (fun platform =>
      checkRectCollision itemPos itemSize platform.position
        ⟨platform.width, platform.height⟩) with
  | some platform =>
    { it with position := ⟨itemPos.x, platform.position.y - it.height⟩,
              velocity := ⟨0, 0⟩, isGrounded := true }
  | none => it

/-- `GameEngine::updateItems`: advance and land each item, then drop the
invalid (expired or consumed) ones. -/
def updateItems (e : GameEngine) (deltaTime : ℚ) (now : Int) : GameEngine :=
  let items := e.items.map (updateItemStep e.platforms deltaTime)
  { e with items := items.filter (fun it => it.isValid now) }

/-- One projectile of the `checkProjectilePlayerCollision` loop: try
player 1 (unless owned by 0 or stealthed), then player 2 only if no hit
yet; returns the updated players and whether the projectile hit. -/
def projectileHitStep (p1 p2 : Player) (proj : Projectile) :
    Player × Player × Bool :=
  let r1 : Player × Bool :=
    if proj.ownerId ≠ 0 then
      if ¬p1.isInvisible ∧
         checkCircleRectCollision proj.position proj.radius p1.position
           ⟨p1.width, p1.height⟩ then
        (p1.takeDamage proj.damage, true)
      else (p1, false)
    else (p1, false)
  let r2 : Player × Bool :=
    if ¬r1.2 ∧ proj.ownerId ≠ 1 then
      if ¬p2.isInvisible ∧
         checkCircleRectCollision proj.position proj.radius p2.position
           ⟨p2.width, p2.height⟩ then
        (p2.takeDamage proj.damage, true)
      else (p2, r1.2)
    else (p2, r1.2)
  (r1.1, r2.1, r2.2)

/-- `checkProjectilePlayerCollision` over the projectile list: a hitting
projectile is erased, the rest survive. -/
def projectilePlayerPass :
    List Projectile → Player → Player → Player × Player × List Projectile
  | [], p1, p2 => (p1, p2, [])
  | proj :: rest, p1, p2 =>
    let s := projectileHitStep p1 p2 proj
    let r := projectilePlayerPass rest s.1 s.2.1
    (r.1, r.2.1, if s.2.2 then r.2.2 else proj :: r.2.2)

def checkProjectilePlayerCollision (e : GameEngine) : GameEngine :=
  let r := projectilePlayerPass e.projectiles e.player1 e.player2
  { e with player1 := r.1, player2 := r.2.1, projectiles := r.2.2 }

/-- `checkProjectilePlatformCollision`: a projectile touching any
platform is erased. -/
def checkProjectilePlatformCollision (e : GameEngine) : GameEngine :=
  { e with projectiles := e.projectiles.filter (fun proj =>
      ¬e.platforms.any (fun platform =>
        checkCircleRectCollision proj.position proj.radius platform.position
          ⟨platform.width, platform.height⟩)) }

/-- `GameEngine::checkCollisions`: projectile-vs-player, then
projectile-vs-platform. -/
def checkCollisions (e : GameEngine) : GameEngine :=
  e.checkProjectilePlayerCollision.checkProjectilePlatformCollision

/-- `GameEngine::update` — the per-tick pipeline; a strict no-op unless
the state is `PLAYING`. -/
def update (e : GameEngine) (deltaTime : ℚ) (now : Int) : GameEngine :=
  if e.gameState ≠ GameState.PLAYING then e
  else
    let e := { e with player1 := if e.player1.isAlive
                                 then e.player1.update deltaTime now
                                 else e.player1 }
    let e := { e with player2 := if e.player2.isAlive
                                 then e.player2.update deltaTime now
                                 else e.player2 }
    let e := e.updatePhysics
    let e := e.updateProjectiles deltaTime now
    let e := e.updateItems deltaTime now
    let e := e.checkCollisions
    if ¬e.player1.isAlive then
      { e with winner := 2, gameState := GameState.GAME_OVER,
               itemTimerActive := false }
    else if ¬e.player2.isAlive then
      { e with winner := 1, gameState := GameState.GAME_OVER,
               itemTimerActive := false }
    else e

/-- Write one player slot back into the engine. -/
def setPlayer (e : GameEngine) (slotOne : Bool) (p : Player) : GameEngine :=
  if slotOne then { e with player1 := p } else { e with player2 := p }

/-- `GameEngine::handlePlayerAttack` for the player in the given slot:
stamp the player-level attack throttle, then resolve melee damage
directly (range, facing, stealth, weapon `canAttack`) or obtain a
projectile from a ranged weapon's `attack`. -/
def handlePlayerAttack (e : GameEngine) (slotOne : Bool) (now : Int) :
    GameEngine :=
  let player := if slotOne then e.player1 else e.player2
  let player := player.attack now
  let weapon := player.weapon
  if weapon.type = WeaponType.FIST ∨ weapon.type = WeaponType.KNIFE then
    if ¬weapon.canAttack now then e.setPlayer slotOne player
    else
      let target := if slotOne then e.player2 else e.player1
      let playerPos := player.position
      let targetPlayerPos := target.position
      let attackRange := weapon.getAttackRange
      let facingTarget :=
        (player.facingRight ∧ targetPlayerPos.x > playerPos.x) ∨
        (¬player.facingRight ∧ targetPlayerPos.x < playerPos.x)
      if playerPos.distSqTo targetPlayerPos ≤ attackRange ^ 2 ∧
         facingTarget ∧ ¬target.isInvisible then
        (e.setPlayer slotOne player).setPlayer (¬slotOne)
          (target.takeDamage weapon.damage)
      else e.setPlayer slotOne player
  else
    let r := weapon.attack player now
    let player := { player with weapon := r.2 }
    let e := e.setPlayer slotOne player
    match r.1 with
    | some projectile => { e with projectiles := e.projectiles ++ [projectile] }
    | none => e

/-- The item-pickup scan inside `handleKeyPress`: first valid item whose
box overlaps the player's box expanded by 30 on every side is attempted;
the scan stops at the first successful pickup. -/
def tryPickupItems (player : Player) (now : Int) :
    List Item → Player × List Item
  | [] => (player, [])
  | it :: rest =>
    if it.isValid now then
      let expandedPlayerPos : Vector2D :=
        ⟨player.position.x - 30, player.position.y - 30⟩
      let expandedPlayerSize : Vector2D :=
        ⟨player.width + 60, player.height + 60⟩
      if checkRectCollision expandedPlayerPos expandedPlayerSize
           it.position ⟨it.width, it.height⟩ then
        let r := player.pickupItem it now
        if r.1 then (r.2.2, r.2.1 :: rest)
        else
          let k := tryPickupItems r.2.2 now rest
          (k.1, r.2.1 :: k.2)
      else
        let k := tryPickupItems player now rest
        (k.1, it :: k.2)
    else
      let k := tryPickupItems player now rest
      (k.1, it :: k.2)

/-- `GameEngine::handleKeyPress`: ignored unless `PLAYING`; otherwise the
player-1 key chain, then the player-2 key chain (the bound keys are all
distinct, so at most one branch fires). -/
def handleKeyPress (e : GameEngine) (key : GKey) (now : Int) : GameEngine :=
  if e.gameState ≠ GameState.PLAYING then e
  else
    let e :=
      if key = GKey.p1Left then { e with player1 := e.player1.moveLeft }
      else if key = GKey.p1Right then { e with player1 := e.player1.moveRight }
      else if key = GKey.p1Jump then { e with player1 := e.player1.jump }
      else if key = GKey.p1Crouch then
        let p := e.player1.crouch
        let k := tryPickupItems p now e.items
        { e with player1 := k.1, items := k.2 }
      else if key = GKey.p1Fire then e.handlePlayerAttack true now
      else e
    if key = GKey.p2Left then { e with player2 := e.player2.moveLeft }
    else if key = GKey.p2Right then { e with player2 := e.player2.moveRight }
    else if key = GKey.p2Jump then { e with player2 := e.player2.jump }
    else if key = GKey.p2Crouch then
      let p := e.player2.crouch
      let k := tryPickupItems p now e.items
      { e with player2 := k.1, items := k.2 }
    else if key = GKey.p2Fire then e.handlePlayerAttack false now
    else e

/-- `GameEngine::handleKeyRelease`: ignored unless `PLAYING`. -/
def handleKeyRelease (e : GameEngine) (key : GKey) : GameEngine :=
  if e.gameState ≠ GameState.PLAYING then e
  else
    let e :=
      if key = GKey.p1Left ∨ key = GKey.p1Right then
        { e with player1 := e.player1.stopMoving }
      else if key = GKey.p1Crouch then
        { e with player1 := e.player1.stopCrouching }
      else e
    if key = GKey.p2Left ∨ key = GKey.p2Right then
      { e with player2 := e.player2.stopMoving }
    else if key = GKey.p2Crouch then
      { e with player2 := e.player2.stopCrouching }
    else e

end GameEngine

/-! ## Call-sequence machinery for the invariant claims -/

/-- A call in an arbitrary `takeDamage`/`heal` sequence. -/
inductive HpOp where
  | damage (amount : Int)
  | heal (amount : Int)
deriving DecidableEq, Repr

def HpOp.amount : HpOp → Int
  | HpOp.damage a => a
  | HpOp.heal a => a

def applyHpOp (p : Player) : HpOp → Player
  | HpOp.damage a => p.takeDamage a
  | HpOp.heal a => p.heal a

def applyHpOps (p : Player) (ops : List HpOp) : Player :=
  ops.foldl applyHpOp p

/-- A call in an arbitrary sequence of the two `Weapon` mutators. -/
inductive WeaponOp where
  | consume
  | reset (t : Int)
deriving DecidableEq, Repr

def applyWeaponOp (w : Weapon) : WeaponOp → Weapon
  | WeaponOp.consume => w.consumeAmmo
  | WeaponOp.reset t => w.resetCooldown t

def applyWeaponOps (w : Weapon) (ops : List WeaponOp) : Weapon :=
  ops.foldl applyWeaponOp w

/-! ## Concrete instances used by witnesses and counterexamples -/

/-- A freshly initialized engine (the result of `initialize()`; the
pre-initialization field values are irrelevant, they are all overwritten). -/
def engine0 : GameEngine :=
  GameEngine.initEngine
    ⟨GameState.PLAYING, 0, Player.mk' ⟨0, 0⟩ true, Player.mk' ⟨0, 0⟩ false,
     [], [], [], false⟩

/-- Fresh match with player 1 walked to x = 960, i.e. 40 units left of
player 2 (within the 50-unit fist range) and facing right toward it. -/
def engineFist : GameEngine :=
  { engine0 with player1 := { engine0.player1 with position := ⟨960, 690⟩ } }

/-- `engineFist` after one player-1 attack command at t = 100000 ms. -/
def engineFist1 : GameEngine := engineFist.handlePlayerAttack true 100000

/-- `engineFist1` after a second player-1 attack command 50 ms later. -/
def engineFist2 : GameEngine := engineFist1.handlePlayerAttack true 100050

/-- A grounded player that crouched while its `isMovingRight` flag was
still set (reachable: `moveRight` then `crouch`; `crouch` does not clear
the direction flags). -/
def pCrouchMove : Player :=
  { Player.mk' ⟨600, 690⟩ true with
    isCrouching := true, isMovingRight := true, isGrounded := true }

/-- A player standing on ice, no adrenaline, moving right. -/
def pIceMove : Player :=
  { Player.mk' ⟨600, 420⟩ true with
    currentTerrain := TerrainType.ICE, isMovingRight := true,
    isGrounded := true }

/-- A projectile in mid-air, fresh at t = 5000, owned by player index 0. -/
def projFresh : Projectile :=
  Projectile.mk' ⟨600, 100⟩ ⟨0, 0⟩ 20 AmmoType.BULLET 0 5000

/-- A minimal playing engine carrying `projFresh`. -/
def engineTick : GameEngine :=
  ⟨GameState.PLAYING, 0, Player.mk' ⟨200, 690⟩ true,
   Player.mk' ⟨1000, 690⟩ false, [projFresh], [], [], true⟩

/-- A rifle whose ammunition has been shot down to a single round. -/
def rifleOneRound : Weapon :=
  { Weapon.mk' WeaponType.RIFLE with ammo := 1 }

/-- A fresh player at the player-1 start position. -/
def pShooter : Player := Player.mk' ⟨200, 690⟩ true

/-- `pShooter` hurt down to 80 hp. -/
def pHurt : Player := { pShooter with hp := 80 }

/-- A bandage item resting at (300, 300), spawned at t = 0. -/
def bandage0 : Item := Item.mk' ItemType.BANDAGE ⟨300, 300⟩ 0

/-- `engine0` paused. -/
def enginePaused : GameEngine := { engine0 with gameState := GameState.PAUSED }

/-! ## Helper lemmas -/

theorem applyHpOp_bounds (p : Player) (op : HpOp) (hnn : 0 ≤ op.amount)
    (h0 : 0 ≤ p.hp) (h1 : p.hp ≤ GameConfig.PLAYER_MAX_HP) :
    0 ≤ (applyHpOp p op).hp ∧ (applyHpOp p op).hp ≤ GameConfig.PLAYER_MAX_HP := by
  cases op with
  | damage a =>
    simp only [HpOp.amount] at hnn
    simp only [applyHpOp, Player.takeDamage, GameConfig.PLAYER_MAX_HP] at *
    omega
  | heal a =>
    simp only [HpOp.amount] at hnn
    simp only [applyHpOp, Player.heal, GameConfig.PLAYER_MAX_HP] at *
    omega

theorem applyWeaponOp_ammo (w : Weapon) (op : WeaponOp) :
    ((applyWeaponOp w op).ammo = if 0 < w.ammo then w.ammo - 1 else w.ammo) ∨
    (applyWeaponOp w op).ammo = w.ammo := by
  cases op with
  | consume =>
    left
    simp only [applyWeaponOp, Weapon.consumeAmmo]
    split_ifs <;> simp_all
  | reset t => right; rfl

theorem applyWeaponOps_inv (w : Weapon) (ops : List WeaponOp)
    (h : w.ammo = -1 ∨ 0 ≤ w.ammo) :
    (applyWeaponOps w ops).ammo = -1 ∨ 0 ≤ (applyWeaponOps w ops).ammo := by
  induction ops generalizing w with
  | nil => exact h
  | cons op rest ih =>
    have hstep : (applyWeaponOp w op).ammo = -1 ∨ 0 ≤ (applyWeaponOp w op).ammo := by
      rcases applyWeaponOp_ammo w op with heq | heq <;> rw [heq]
      · split_ifs with hp
        · right; omega
        · exact h
      · exact h
    simpa [applyWeaponOps] using ih (applyWeaponOp w op) hstep

theorem applyWeaponOps_infinite (w : Weapon) (ops : List WeaponOp)
    (h : w.ammo = -1) : (applyWeaponOps w ops).ammo = -1 := by
  induction ops generalizing w with
  | nil => exact h
  | cons op rest ih =>
    have hstep : (applyWeaponOp w op).ammo = -1 := by
      rcases applyWeaponOp_ammo w op with heq | heq <;> rw [heq]
      · rw [if_neg (by omega)]; exact h
      · exact h
    simpa [applyWeaponOps] using ih (applyWeaponOp w op) hstep

/-! ## Claim theorems -/

/-- C3: for every player and every finite sequence of `takeDamage` / `heal`
calls with non-negative amounts, starting from any hp in [0, maxHp], the
player's hp remains within [0, maxHp] after each call (i.e. after every
prefix of the sequence). -/
theorem hp_stays_within_bounds (p : Player) (ops : List HpOp)
    (hnn : ∀ op ∈ ops, 0 ≤ op.amount)
    (h0 : 0 ≤ p.hp) (h1 : p.hp ≤ GameConfig.PLAYER_MAX_HP) (n : ℕ) :
    0 ≤ (applyHpOps p (ops.take n)).hp ∧
      (applyHpOps p (ops.take n)).hp ≤ GameConfig.PLAYER_MAX_HP := by
  induction ops generalizing p n with
  | nil => simpa [applyHpOps] using ⟨h0, h1⟩
  | cons op rest ih =>
    cases n with
    | zero => simpa [applyHpOps] using ⟨h0, h1⟩
    | succ m =>
      have hstep := applyHpOp_bounds p op (hnn op (by simp)) h0 h1
      have hrest := ih (applyHpOp p op)
        (fun o ho => hnn o (by simp [ho])) hstep.1 hstep.2 m
      simpa [applyHpOps] using hrest

theorem hp_stays_within_bounds_witness :
    (∀ op ∈ [HpOp.damage 30, HpOp.heal 10, HpOp.damage 200, HpOp.heal 500],
       0 ≤ op.amount) ∧
    0 ≤ (applyHpOps pShooter
          ([HpOp.damage 30, HpOp.heal 10, HpOp.damage 200, HpOp.heal 500].take 3)).hp ∧
    (applyHpOps pShooter
          ([HpOp.damage 30, HpOp.heal 10, HpOp.damage 200, HpOp.heal 500].take 3)).hp ≤
      GameConfig.PLAYER_MAX_HP :=
  ⟨by decide,
   hp_stays_within_bounds pShooter _ (by decide) (by decide) (by decide) 3⟩

/-- C10: every weapon's ammo is always the infinite sentinel −1 or
non-negative: each constructed weapon starts that way, `consumeAmmo`
decrements exactly the strictly positive counts, the property is stable
under every sequence of `consumeAmmo`/`resetCooldown` calls, and a weapon
starting at −1 stays at −1 forever with `hasAmmo()` true. -/
theorem ammo_sentinel_invariant :
    (∀ ty : WeaponType, (Weapon.mk' ty).ammo = -1 ∨ 0 ≤ (Weapon.mk' ty).ammo) ∧
    (∀ w : Weapon, 0 < w.ammo → (w.consumeAmmo).ammo = w.ammo - 1) ∧
    (∀ w : Weapon, ¬0 < w.ammo → w.consumeAmmo = w) ∧
    (∀ (w : Weapon) (ops : List WeaponOp), (w.ammo = -1 ∨ 0 ≤ w.ammo) →
       (applyWeaponOps w ops).ammo = -1 ∨ 0 ≤ (applyWeaponOps w ops).ammo) ∧
    (∀ (w : Weapon) (ops : List WeaponOp), w.ammo = -1 →
       (applyWeaponOps w ops).ammo = -1 ∧ (applyWeaponOps w ops).hasAmmo = true) := by
  refine ⟨?_, ?_, ?_, ?_, ?_⟩
  · intro ty; cases ty <;> decide
  · intro w h; simp [Weapon.consumeAmmo, h]
  · intro w h; simp [Weapon.consumeAmmo, h]
  · exact fun w ops h => applyWeaponOps_inv w ops h
  · intro w ops h
    have := applyWeaponOps_infinite w ops h
    refine ⟨this, ?_⟩
    simp [Weapon.hasAmmo, this]

theorem ammo_sentinel_invariant_witness :
    (Weapon.mk' WeaponType.FIST).ammo = -1 ∧
    (applyWeaponOps (Weapon.mk' WeaponType.FIST)
        [WeaponOp.consume, WeaponOp.reset 5, WeaponOp.consume]).ammo = -1 ∧
    (applyWeaponOps (Weapon.mk' WeaponType.FIST)
        [WeaponOp.consume, WeaponOp.reset 5, WeaponOp.consume]).hasAmmo = true :=
  ⟨by decide,
   (ammo_sentinel_invariant.2.2.2.2 (Weapon.mk' WeaponType.FIST)
      [WeaponOp.consume, WeaponOp.reset 5, WeaponOp.consume] (by decide)).1,
   (ammo_sentinel_invariant.2.2.2.2 (Weapon.mk' WeaponType.FIST)
      [WeaponOp.consume, WeaponOp.reset 5, WeaponOp.consume] (by decide)).2⟩

/-- C9: when the game state is not `PLAYING`, a tick (`update`) leaves the
entire engine state unchanged, and every key-press / key-release command
is silently ignored with no state change. -/
theorem paused_commands_ignored (e : GameEngine) (dt : ℚ) (now : Int)
    (key : GKey) (h : e.gameState ≠ GameState.PLAYING) :
    e.update dt now = e ∧ e.handleKeyPress key now = e ∧
      e.handleKeyRelease key = e := by
  refine ⟨?_, ?_, ?_⟩
  · rw [GameEngine.update, if_pos h]
  · rw [GameEngine.handleKeyPress, if_pos h]
  · rw [GameEngine.handleKeyRelease, if_pos h]

theorem paused_commands_ignored_witness :
    enginePaused.gameState ≠ GameState.PLAYING ∧
    enginePaused.update (1/60) 0 = enginePaused ∧
    enginePaused.handleKeyPress GKey.p1Fire 0 = enginePaused ∧
    enginePaused.handleKeyRelease GKey.p1Fire = enginePaused :=
  ⟨by decide, paused_commands_ignored enginePaused (1/60) 0 GKey.p1Fire (by decide)⟩

/-- C6: `canAttack()` holds exactly when ammo is nonzero (given the
reachable-ammo invariant of C10) and the cooldown has elapsed; a
successful fire consumes one ammo unit (none when infinite) and resets
the cooldown clock; a rifle firing its last round ends with ammo 0,
`hasAmmo()` false, and `canAttack()` false at every later time. -/
theorem canAttack_characterization :
    (∀ (w : Weapon) (now : Int), (w.ammo = -1 ∨ 0 ≤ w.ammo) →
       (w.canAttack now = true ↔
         (w.ammo ≠ 0 ∧ now - w.lastAttackTime ≥ w.cooldown))) ∧
    (∀ w : Weapon, 0 < w.ammo → (w.consumeAmmo).ammo = w.ammo - 1) ∧
    (∀ w : Weapon, w.ammo = -1 → w.consumeAmmo = w) ∧
    (∀ (w : Weapon) (now : Int), (w.resetCooldown now).lastAttackTime = now) ∧
    (∀ (w : Weapon) (p : Player) (now : Int),
       (w.type = WeaponType.BALL ∨ w.type = WeaponType.RIFLE ∨
        w.type = WeaponType.SNIPER) →
       w.canAttack now = true →
       (w.attack p now).2 = (w.consumeAmmo).resetCooldown now) ∧
    (∀ (w : Weapon) (p : Player) (now : Int),
       (w.type = WeaponType.FIST ∨ w.type = WeaponType.KNIFE) →
       w.canAttack now = true →
       (w.attack p now).2 = w.resetCooldown now) ∧
    (∀ (w : Weapon) (p : Player) (now : Int),
       w.type = WeaponType.RIFLE → w.ammo = 1 → w.canAttack now = true →
       ((w.attack p now).2.ammo = 0 ∧ (w.attack p now).2.hasAmmo = false ∧
        ∀ t : Int, (w.attack p now).2.canAttack t = false)) := by
  refine ⟨?_, ?_, ?_, ?_, ?_, ?_, ?_⟩
  · intro w now h
    constructor
    · intro hc
      by_cases ha : w.hasAmmo = true
      · refine ⟨?_, by simpa [Weapon.canAttack, ha] using hc⟩
        have ha' := ha
        simp only [Weapon.hasAmmo, decide_eq_true_eq] at ha'
        omega
      · simp [Weapon.canAttack, ha] at hc
    · rintro ⟨h1, h2⟩
      have ha : w.hasAmmo = true := by
        simp only [Weapon.hasAmmo, decide_eq_true_eq]
        omega
      simp [Weapon.canAttack, ha, h2]
  · intro w h; simp [Weapon.consumeAmmo, h]
  · intro w h; simp [Weapon.consumeAmmo, h]
  · intro w now; rfl
  · rintro w p now (ht | ht | ht) hcan <;>
      obtain ⟨ty, am, dm, cd, lt⟩ := w <;>
      dsimp only at ht <;> subst ht <;>
      simp [Weapon.attack, Weapon.ballAttack, Weapon.rifleAttack,
        Weapon.sniperAttack, hcan]
  · rintro w p now (ht | ht) hcan <;>
      obtain ⟨ty, am, dm, cd, lt⟩ := w <;>
      dsimp only at ht <;> subst ht <;>
      simp [Weapon.attack, Weapon.meleeAttack, hcan]
  · intro w p now hty ham hcan
    obtain ⟨ty, am, dm, cd, lt⟩ := w
    dsimp only at hty ham
    subst hty; subst ham
    have hatt :
        (Weapon.attack ⟨WeaponType.RIFLE, 1, dm, cd, lt⟩ p now).2 =
          ⟨WeaponType.RIFLE, 0, dm, cd, now⟩ := by
      simp [Weapon.attack, Weapon.rifleAttack, hcan, Weapon.consumeAmmo,
        Weapon.resetCooldown]
    rw [hatt]
    refine ⟨rfl, by simp [Weapon.hasAmmo], ?_⟩
    intro t
    simp [Weapon.canAttack, Weapon.hasAmmo]

theorem canAttack_characterization_witness :
    rifleOneRound.type = WeaponType.RIFLE ∧ rifleOneRound.ammo = 1 ∧
    rifleOneRound.canAttack 1000 = true ∧
    (rifleOneRound.attack pShooter 1000).2.ammo = 0 ∧
    (rifleOneRound.attack pShooter 1000).2.hasAmmo = false ∧
    (rifleOneRound.attack pShooter 1000).2.canAttack 999999 = false :=
  ⟨by decide, by decide, by decide,
   (canAttack_characterization.2.2.2.2.2.2 rifleOneRound pShooter 1000
      (by decide) (by decide) (by decide)).1,
   (canAttack_characterization.2.2.2.2.2.2 rifleOneRound pShooter 1000
      (by decide) (by decide) (by decide)).2.1,
   (canAttack_characterization.2.2.2.2.2.2 rifleOneRound pShooter 1000
      (by decide) (by decide) (by decide)).2.2 999999⟩

theorem hitStep_owner0 (p1 p2 : Player) (proj : Projectile)
    (h : proj.ownerId = 0) :
    (GameEngine.projectileHitStep p1 p2 proj).1 = p1 := by
  simp [GameEngine.projectileHitStep, h]

theorem hitStep_owner1 (p1 p2 : Player) (proj : Projectile)
    (h : proj.ownerId = 1) :
    (GameEngine.projectileHitStep p1 p2 proj).2.1 = p2 := by
  simp [GameEngine.projectileHitStep, h]

theorem hitStep_at_most_one (p1 p2 : Player) (proj : Projectile)
    (h : (GameEngine.projectileHitStep p1 p2 proj).1 ≠ p1) :
    (GameEngine.projectileHitStep p1 p2 proj).2.1 = p2 := by
  by_cases h0 : proj.ownerId = 0
  · exact absurd (hitStep_owner0 p1 p2 proj h0) h
  · simp only [GameEngine.projectileHitStep, h0] at h ⊢
    split_ifs at h ⊢ <;> simp_all

theorem pass_owner0_fixed (projs : List Projectile) (p1 p2 : Player)
    (h : ∀ proj ∈ projs, proj.ownerId = 0) :
    (GameEngine.projectilePlayerPass projs p1 p2).1 = p1 := by
  induction projs generalizing p2 with
  | nil => rfl
  | cons proj rest ih =>
    have hs1 : (GameEngine.projectileHitStep p1 p2 proj).1 = p1 :=
      hitStep_owner0 p1 p2 proj (h proj (by simp))
    show (GameEngine.projectilePlayerPass rest
      (GameEngine.projectileHitStep p1 p2 proj).1
      (GameEngine.projectileHitStep p1 p2 proj).2.1).1 = p1
    rw [hs1]
    exact ih _ (fun q hq => h q (by simp [hq]))

theorem pass_owner1_fixed (projs : List Projectile) (p1 p2 : Player)
    (h : ∀ proj ∈ projs, proj.ownerId = 1) :
    (GameEngine.projectilePlayerPass projs p1 p2).2.1 = p2 := by
  induction projs generalizing p1 with
  | nil => rfl
  | cons proj rest ih =>
    have hs2 : (GameEngine.projectileHitStep p1 p2 proj).2.1 = p2 :=
      hitStep_owner1 p1 p2 proj (h proj (by simp))
    show (GameEngine.projectilePlayerPass rest
      (GameEngine.projectileHitStep p1 p2 proj).1
      (GameEngine.projectileHitStep p1 p2 proj).2.1).2.1 = p2
    rw [hs2]
    exact ih _ (fun q hq => h q (by simp [hq]))

/-- C4: during projectile-vs-player collision resolution, a projectile
whose `ownerId` is 0 (resp. 1) never changes player 1 (resp. player 2);
a projectile changes at most one of the two players; a projectile whose
step hit is true is removed from the surviving list; and over the whole
pass, any change to a player can only come from a projectile with a
different `ownerId`. -/
theorem projectile_owner_immunity :
    (∀ (p1 p2 : Player) (proj : Projectile),
       proj.ownerId = 0 → (GameEngine.projectileHitStep p1 p2 proj).1 = p1) ∧
    (∀ (p1 p2 : Player) (proj : Projectile),
       proj.ownerId = 1 → (GameEngine.projectileHitStep p1 p2 proj).2.1 = p2) ∧
    (∀ (p1 p2 : Player) (proj : Projectile),
       (GameEngine.projectileHitStep p1 p2 proj).1 ≠ p1 →
       (GameEngine.projectileHitStep p1 p2 proj).2.1 = p2) ∧
    (∀ (p1 p2 : Player) (proj : Projectile) (rest : List Projectile),
       (GameEngine.projectileHitStep p1 p2 proj).2.2 = true →
       (GameEngine.projectilePlayerPass (proj :: rest) p1 p2).2.2 =
         (GameEngine.projectilePlayerPass rest
           (GameEngine.projectileHitStep p1 p2 proj).1
           (GameEngine.projectileHitStep p1 p2 proj).2.1).2.2) ∧
    (∀ (projs : List Projectile) (p1 p2 : Player),
       (GameEngine.projectilePlayerPass projs p1 p2).1 ≠ p1 →
       ∃ proj ∈ projs, proj.ownerId ≠ 0) ∧
    (∀ (projs : List Projectile) (p1 p2 : Player),
       (GameEngine.projectilePlayerPass projs p1 p2).2.1 ≠ p2 →
       ∃ proj ∈ projs, proj.ownerId ≠ 1) := by
  refine ⟨hitStep_owner0, hitStep_owner1, hitStep_at_most_one, ?_, ?_, ?_⟩
  · intro p1 p2 proj rest h
    simp [GameEngine.projectilePlayerPass, h]
  · intro projs p1 p2 h
    by_contra hall
    push_neg at hall
    exact h (pass_owner0_fixed projs p1 p2 hall)
  · intro projs p1 p2 h
    by_contra hall
    push_neg at hall
    exact h (pass_owner1_fixed projs p1 p2 hall)

theorem projectile_owner_immunity_witness :
    projFresh.ownerId = 0 ∧
    (GameEngine.projectileHitStep pShooter pHurt projFresh).1 = pShooter :=
  ⟨rfl, projectile_owner_immunity.1 pShooter pHurt projFresh rfl⟩

theorem pass_survivor_mem (projs : List Projectile) (p1 p2 : Player)
    (q : Projectile)
    (hq : q ∈ (GameEngine.projectilePlayerPass projs p1 p2).2.2) :
    q ∈ projs := by
  induction projs generalizing p1 p2 with
  | nil => simp [GameEngine.projectilePlayerPass] at hq
  | cons proj rest ih =>
    have hq' : q ∈ (if (GameEngine.projectileHitStep p1 p2 proj).2.2 then
        (GameEngine.projectilePlayerPass rest
          (GameEngine.projectileHitStep p1 p2 proj).1
          (GameEngine.projectileHitStep p1 p2 proj).2.1).2.2
      else proj :: (GameEngine.projectilePlayerPass rest
          (GameEngine.projectileHitStep p1 p2 proj).1
          (GameEngine.projectileHitStep p1 p2 proj).2.1).2.2) := hq
    by_cases hs : (GameEngine.projectileHitStep p1 p2 proj).2.2 = true
    · rw [if_pos hs] at hq'
      exact List.mem_cons_of_mem _ (ih _ _ hq')
    · rw [if_neg hs] at hq'
      rcases List.mem_cons.mp hq' with h | h
      · simp [h]
      · exact List.mem_cons_of_mem _ (ih _ _ h)

theorem isValid_true_iff (q : Projectile) (now : Int) :
    q.isValid now = true ↔
      (now - q.startTime ≤ Projectile.MAX_LIFETIME ∧
       ¬(q.position.x < -100 ∨ q.position.x > GameConfig.WINDOW_WIDTH + 100 ∨
         q.position.y < -100 ∨ q.position.y > GameConfig.WINDOW_HEIGHT + 100)) := by
  rw [Projectile.isValid]
  split_ifs with h1 h2
  · simp only [Bool.false_eq_true, false_iff]
    intro hcon
    exact absurd hcon.1 (by omega)
  · simp [h2]
  · simp only [true_iff]
    exact ⟨by omega, h2⟩

theorem mem_updateProjectiles_valid (e : GameEngine) (dt : ℚ) (now : Int)
    (q : Projectile) (hq : q ∈ (e.updateProjectiles dt now).projectiles) :
    q.isValid now = true := by
  simp only [GameEngine.updateProjectiles] at hq
  exact (List.mem_filter.mp hq).2

theorem mem_checkCollisions (e : GameEngine) (q : Projectile)
    (hq : q ∈ e.checkCollisions.projectiles) : q ∈ e.projectiles := by
  simp only [GameEngine.checkCollisions,
    GameEngine.checkProjectilePlatformCollision,
    GameEngine.checkProjectilePlayerCollision] at hq
  exact pass_survivor_mem _ _ _ _ (List.mem_filter.mp hq).1

theorem updateItems_projectiles (e : GameEngine) (dt : ℚ) (now : Int) :
    (e.updateItems dt now).projectiles = e.projectiles := rfl

theorem mem_update_valid (e : GameEngine) (dt : ℚ) (now : Int)
    (hplay : e.gameState = GameState.PLAYING) (q : Projectile)
    (hq : q ∈ (e.update dt now).projectiles) : q.isValid now = true := by
  rw [GameEngine.update, if_neg (fun hne => hne hplay)] at hq
  dsimp only at hq
  split_ifs at hq <;>
  · have h4 := mem_checkCollisions _ q hq
    rw [updateItems_projectiles] at h4
    exact mem_updateProjectiles_valid _ dt now q h4

/-- C5: a projectile is valid exactly while its age is at most 5000 ms and
its position is inside the playfield expanded by a 100-unit margin; the
projectile-advance step removes every invalid projectile; hence after any
tick (in the `PLAYING` state) no surviving projectile is older than
5000 ms. -/
theorem projectile_lifetime_culling :
    (∀ (q : Projectile) (now : Int),
       q.isValid now = true ↔
         (now - q.startTime ≤ Projectile.MAX_LIFETIME ∧
          ¬(q.position.x < -100 ∨ q.position.x > GameConfig.WINDOW_WIDTH + 100 ∨
            q.position.y < -100 ∨
            q.position.y > GameConfig.WINDOW_HEIGHT + 100))) ∧
    (∀ (e : GameEngine) (dt : ℚ) (now : Int) (q : Projectile),
       q ∈ (e.updateProjectiles dt now).projectiles → q.isValid now = true) ∧
    (∀ (e : GameEngine) (dt : ℚ) (now : Int),
       e.gameState = GameState.PLAYING →
       ∀ q ∈ (e.update dt now).projectiles,
         now - q.startTime ≤ Projectile.MAX_LIFETIME) := by
  refine ⟨isValid_true_iff, mem_updateProjectiles_valid, ?_⟩
  intro e dt now hplay q hq
  exact ((isValid_true_iff q now).mp (mem_update_valid e dt now hplay q hq)).1

theorem projectile_lifetime_culling_witness :
    engineTick.gameState = GameState.PLAYING ∧
    projFresh ∈ (engineTick.update 0 5000).projectiles ∧
    5000 - projFresh.startTime ≤ Projectile.MAX_LIFETIME := by
  have hmem : projFresh ∈ (engineTick.update 0 5000).projectiles := by
    norm_num [engineTick, projFresh, GameEngine.update, Player.mk',
      Player.update, Player.updatePhysics, Player.updateAdrenalineEffect,
      Player.getCurrentMoveSpeed, Player.isAlive, Player.isInvisible,
      Player.width, Player.height, Player.takeDamage,
      GameEngine.updatePhysics, GameEngine.checkPlayerPlatformCollision,
      GameEngine.platformCollideStep, GameEngine.getPlayerTerrainType,
      GameEngine.updateProjectiles, GameEngine.updateItems,
      GameEngine.updateItemStep, GameEngine.checkCollisions,
      GameEngine.checkProjectilePlayerCollision,
      GameEngine.checkProjectilePlatformCollision,
      GameEngine.projectilePlayerPass, GameEngine.projectileHitStep,
      GameEngine.checkCircleRectCollision, GameEngine.checkRectCollision,
      Projectile.mk', Projectile.update, Projectile.isValid,
      Projectile.MAX_LIFETIME, Vector2D.add, Vector2D.smul,
      Vector2D.lengthSquared, Player.setTerrainType,
      GameConfig.WINDOW_WIDTH, GameConfig.WINDOW_HEIGHT,
      GameConfig.GRAVITY, GameConfig.GROUND_LEVEL, GameConfig.FRICTION,
      GameConfig.PLAYER_SPEED, GameConfig.PLAYER_WIDTH,
      GameConfig.PLAYER_HEIGHT, GameConfig.PLAYER_MAX_HP, Weapon.mk',
      GameConfig.FIST_DAMAGE, GameConfig.FIST_COOLDOWN]
  exact ⟨rfl, hmem,
    projectile_lifetime_culling.2.2 engineTick 0 5000 rfl projFresh hmem⟩

theorem getCurrentMoveSpeed_formula (p : Player) :
    p.getCurrentMoveSpeed =
      GameConfig.PLAYER_SPEED *
        (if p.currentTerrain = TerrainType.ICE
         then GameConfig.ICE_SPEED_MULTIPLIER else 1) *
        (if p.hasAdrenaline
         then GameConfig.ADRENALINE_SPEED_MULTIPLIER else 1) := by
  rw [Player.getCurrentMoveSpeed]
  split_ifs <;> ring

theorem updatePhysics_vx (p : Player) (dt : ℚ)
    (hcr : p.isCrouching = false)
    (hmv : p.isMovingLeft = true ∨ p.isMovingRight = true)
    (hlo : 0 ≤ p.position.x +
      (if p.isMovingLeft then -p.getCurrentMoveSpeed
       else p.getCurrentMoveSpeed) * dt)
    (hhi : p.position.x +
      (if p.isMovingLeft then -p.getCurrentMoveSpeed
       else p.getCurrentMoveSpeed) * dt ≤
      GameConfig.WINDOW_WIDTH - GameConfig.PLAYER_WIDTH) :
    (p.updatePhysics dt).velocity.x =
      (if p.isMovingLeft then -p.getCurrentMoveSpeed
       else p.getCurrentMoveSpeed) := by
  by_cases hml : p.isMovingLeft = true
  · simp only [hml, if_true] at hlo hhi ⊢
    simp only [Player.updatePhysics, hcr, hml, Player.width,
      Vector2D.add, Vector2D.smul, Bool.false_eq_true, not_false_iff,
      if_true, if_false]
    split_ifs <;> first
      | rfl
      | (exfalso; simp_all; linarith)
  · have hmr : p.isMovingRight = true := by tauto
    simp only [hml, if_false] at hlo hhi ⊢
    simp only [Player.updatePhysics, hcr, hml, hmr, Player.width,
      Vector2D.add, Vector2D.smul, Bool.false_eq_true, not_false_iff,
      if_true, if_false]
    split_ifs <;> first
      | rfl
      | (exfalso; simp_all; linarith)

/-- C7 counterexample: the claim quantifies over EVERY player with an
active movement direction flag, but a crouching player can still carry a
movement flag (reachable by `moveRight` then `crouch`, which does not
clear the flags); `updatePhysics` then leaves the horizontal velocity at
0, not ±currentSpeed. -/
theorem crouch_with_move_flag_not_snapped :
    pCrouchMove.isMovingRight = true ∧
    pCrouchMove.getCurrentMoveSpeed = 300 ∧
    (pCrouchMove.updatePhysics (1/60)).velocity.x = 0 ∧
    (pCrouchMove.updatePhysics (1/60)).velocity.x ≠
      pCrouchMove.getCurrentMoveSpeed ∧
    (pCrouchMove.updatePhysics (1/60)).velocity.x ≠
      -pCrouchMove.getCurrentMoveSpeed := by
  have hspd : pCrouchMove.getCurrentMoveSpeed = 300 := by
    norm_num [pCrouchMove, Player.mk', Player.getCurrentMoveSpeed,
      GameConfig.PLAYER_SPEED]
    intro h
    exact absurd h (by decide)
  have hvx : (pCrouchMove.updatePhysics (1/60)).velocity.x = 0 := by
    norm_num [pCrouchMove, Player.mk', Player.updatePhysics,
      Vector2D.add, Vector2D.smul, Player.width, Player.height,
      GameConfig.WINDOW_WIDTH, GameConfig.GROUND_LEVEL,
      GameConfig.PLAYER_WIDTH, GameConfig.PLAYER_HEIGHT,
      GameConfig.GRAVITY]
  refine ⟨rfl, hspd, hvx, ?_, ?_⟩ <;> rw [hvx, hspd] <;> norm_num

/-- C7 (amended): for every NON-CROUCHING player with an active movement
direction flag, whenever the integrated x-position stays inside the
window clamp range, the per-tick physics update sets the horizontal
velocity to exactly ±currentSpeed, where currentSpeed is the base speed
times 1.5 on Ice and times 1.3 under adrenaline (stacking
multiplicatively); in particular on Ice with no adrenaline the resulting
horizontal speed is base speed × 1.5. -/
theorem move_flag_snaps_to_current_speed (p : Player) (dt : ℚ)
    (hcr : p.isCrouching = false)
    (hmv : p.isMovingLeft = true ∨ p.isMovingRight = true)
    (hlo : 0 ≤ p.position.x +
      (if p.isMovingLeft then -p.getCurrentMoveSpeed
       else p.getCurrentMoveSpeed) * dt)
    (hhi : p.position.x +
      (if p.isMovingLeft then -p.getCurrentMoveSpeed
       else p.getCurrentMoveSpeed) * dt ≤
      GameConfig.WINDOW_WIDTH - GameConfig.PLAYER_WIDTH) :
    (p.updatePhysics dt).velocity.x =
      (if p.isMovingLeft then -p.getCurrentMoveSpeed
       else p.getCurrentMoveSpeed) ∧
    p.getCurrentMoveSpeed =
      GameConfig.PLAYER_SPEED *
        (if p.currentTerrain = TerrainType.ICE
         then GameConfig.ICE_SPEED_MULTIPLIER else 1) *
        (if p.hasAdrenaline
         then GameConfig.ADRENALINE_SPEED_MULTIPLIER else 1) ∧
    (p.currentTerrain = TerrainType.ICE → p.hasAdrenaline = false →
       |(p.updatePhysics dt).velocity.x| =
         GameConfig.PLAYER_SPEED * GameConfig.ICE_SPEED_MULTIPLIER) := by
  refine ⟨updatePhysics_vx p dt hcr hmv hlo hhi,
    getCurrentMoveSpeed_formula p, ?_⟩
  intro hice hadr
  rw [updatePhysics_vx p dt hcr hmv hlo hhi]
  have hf := getCurrentMoveSpeed_formula p
  rw [hice, hadr] at hf
  simp only [eq_self_iff_true, if_true, Bool.false_eq_true, if_false, mul_one] at hf
  split_ifs with hml
  · rw [hf, abs_neg,
      abs_of_nonneg (by norm_num [GameConfig.PLAYER_SPEED,
        GameConfig.ICE_SPEED_MULTIPLIER])]
  · rw [hf,
      abs_of_nonneg (by norm_num [GameConfig.PLAYER_SPEED,
        GameConfig.ICE_SPEED_MULTIPLIER])]

theorem move_flag_snaps_to_current_speed_witness :
    pCrouchMove.isCrouching = true ∧
    pIceMove.isCrouching = false ∧
    pIceMove.isMovingRight = true ∧
    |(pIceMove.updatePhysics (1/60)).velocity.x| =
      GameConfig.PLAYER_SPEED * GameConfig.ICE_SPEED_MULTIPLIER := by
  have hlo : 0 ≤ pIceMove.position.x +
      (if pIceMove.isMovingLeft then -pIceMove.getCurrentMoveSpeed
       else pIceMove.getCurrentMoveSpeed) * (1/60) := by
    norm_num [pIceMove, Player.mk', Player.getCurrentMoveSpeed,
      GameConfig.PLAYER_SPEED, GameConfig.ICE_SPEED_MULTIPLIER]
  have hhi : pIceMove.position.x +
      (if pIceMove.isMovingLeft then -pIceMove.getCurrentMoveSpeed
       else pIceMove.getCurrentMoveSpeed) * (1/60) ≤
      GameConfig.WINDOW_WIDTH - GameConfig.PLAYER_WIDTH := by
    norm_num [pIceMove, Player.mk', Player.getCurrentMoveSpeed,
      GameConfig.PLAYER_SPEED, GameConfig.ICE_SPEED_MULTIPLIER,
      GameConfig.WINDOW_WIDTH, GameConfig.PLAYER_WIDTH]
  exact ⟨rfl, rfl, rfl,
    (move_flag_snaps_to_current_speed pIceMove (1/60) rfl (Or.inr rfl)
      hlo hhi).2.2 rfl rfl⟩

/-- C8: picking up a (valid) bandage or medkit succeeds exactly when the
player's hp is below max; on success the type-specific heal amount is
applied (clamped at maxHp by `heal`) and the item is invalidated; at full
hp the pickup fails and both the item and the player are unchanged (the
item stays valid). Weapon items always succeed and replace the player's
weapon; adrenaline items always succeed and (re)start the timed buff. -/
theorem pickup_rules (p : Player) (it : Item) (now : Int)
    (hv : it.isValid now = true) :
    ((it.type = ItemType.BANDAGE ∨ it.type = ItemType.MEDKIT) →
       (((p.pickupItem it now).1 = true) ↔
         p.hp < GameConfig.PLAYER_MAX_HP)) ∧
    (it.type = ItemType.BANDAGE → p.hp < GameConfig.PLAYER_MAX_HP →
       p.pickupItem it now =
         (true, { it with validFlag := false },
          p.heal GameConfig.BANDAGE_HEAL)) ∧
    (it.type = ItemType.MEDKIT → p.hp < GameConfig.PLAYER_MAX_HP →
       p.pickupItem it now =
         (true, { it with validFlag := false },
          p.heal GameConfig.MEDKIT_HEAL)) ∧
    ((it.type = ItemType.BANDAGE ∨ it.type = ItemType.MEDKIT) →
       ¬p.hp < GameConfig.PLAYER_MAX_HP →
       p.pickupItem it now = (false, it, p)) ∧
    (∀ a : Int, (p.heal a).hp = min GameConfig.PLAYER_MAX_HP (p.hp + a)) ∧
    (it.type = ItemType.WEAPON_KNIFE →
       p.pickupItem it now = (true, { it with validFlag := false },
         { p with weapon := Weapon.mk' WeaponType.KNIFE })) ∧
    (it.type = ItemType.WEAPON_BALL →
       p.pickupItem it now = (true, { it with validFlag := false },
         { p with weapon := Weapon.mk' WeaponType.BALL })) ∧
    (it.type = ItemType.WEAPON_RIFLE →
       p.pickupItem it now = (true, { it with validFlag := false },
         { p with weapon := Weapon.mk' WeaponType.RIFLE })) ∧
    (it.type = ItemType.WEAPON_SNIPER →
       p.pickupItem it now = (true, { it with validFlag := false },
         { p with weapon := Weapon.mk' WeaponType.SNIPER })) ∧
    (it.type = ItemType.ADRENALINE →
       p.pickupItem it now = (true, { it with validFlag := false },
         p.applyAdrenaline GameConfig.ADRENALINE_DURATION now)) := by
  have hpk : p.pickupItem it now = it.onPickup p now := by
    rw [Player.pickupItem, if_neg (by simp [hv])]
  refine ⟨?_, ?_, ?_, ?_, ?_, ?_, ?_, ?_, ?_, ?_⟩
  · rintro (ht | ht) <;> rw [hpk] <;>
      simp only [Item.onPickup, ht] <;>
      split_ifs with h <;> simp [h]
  · intro ht hhp; rw [hpk]; simp [Item.onPickup, ht, hhp]
  · intro ht hhp; rw [hpk]; simp [Item.onPickup, ht, hhp]
  · rintro (ht | ht) hhp <;> rw [hpk] <;> simp [Item.onPickup, ht, hhp]
  · intro a; rfl
  · intro ht; rw [hpk]; simp [Item.onPickup, ht, Item.createWeapon]
  · intro ht; rw [hpk]; simp [Item.onPickup, ht, Item.createWeapon]
  · intro ht; rw [hpk]; simp [Item.onPickup, ht, Item.createWeapon]
  · intro ht; rw [hpk]; simp [Item.onPickup, ht, Item.createWeapon]
  · intro ht; rw [hpk]; simp [Item.onPickup, ht]

theorem pickup_rules_witness :
    bandage0.isValid 1000 = true ∧
    pHurt.hp < GameConfig.PLAYER_MAX_HP ∧
    pHurt.pickupItem bandage0 1000 =
      (true, { bandage0 with validFlag := false },
       pHurt.heal GameConfig.BANDAGE_HEAL) :=
  ⟨by decide, by decide,
   (pickup_rules pHurt bandage0 1000 (by decide)).2.1 rfl (by decide)⟩

/-- C1 (code bug): fresh match, both players at full hp with Fist, player
0 at x = 960 facing player 1 at x = 1000 (distance 40 ≤ range 50). The
first attack command at t = 100000 ms deals exactly the fist damage, but
a second attack command 50 ms later — inside the 100 ms player-level
throttle, which the code honours only for the `Player::attack` timestamp
(`engineFist2.player1.lastAttackTime` stays 100000) — deals the fist
damage AGAIN: `handlePlayerAttack` never consults the throttle before
resolving melee damage and never resets the weapon cooldown, so player
1's hp drops to 70 instead of staying at 85 as the claim requires. -/
theorem second_attack_within_100ms_still_damages :
    engineFist1.player2.hp = 100 - GameConfig.FIST_DAMAGE ∧
    engineFist1.player1.lastAttackTime = 100000 ∧
    engineFist2.player1.lastAttackTime = 100000 ∧
    engineFist2.player2.hp = 100 - 2 * GameConfig.FIST_DAMAGE := by
  norm_num [engineFist2, engineFist1, engineFist, engine0,
    GameEngine.initEngine, GameEngine.createPlatforms,
    GameEngine.handlePlayerAttack, GameEngine.setPlayer, Player.mk',
    Player.attack, Player.takeDamage, Weapon.mk', Weapon.canAttack,
    Weapon.hasAmmo, Weapon.getAttackRange, Vector2D.distSqTo,
    Vector2D.sub, Vector2D.lengthSquared, Player.isInvisible,
    Player.width, Player.height, GameConfig.PLAYER_MAX_HP,
    GameConfig.FIST_DAMAGE, GameConfig.FIST_COOLDOWN,
    GameConfig.GROUND_LEVEL, GameConfig.PLAYER_HEIGHT,
    GameConfig.PLAYER_WIDTH]

/-- C2 (code bug): at the same concrete melee attack all four success
conditions of the claim hold (weapon `canAttack`, distance ≤ range,
attacker facing defender, defender not stealthed) and the flat fist
damage is applied — but the weapon's cooldown is NOT reset: the melee
branch of `handlePlayerAttack` never calls `resetCooldown` (the
`FistWeapon::attack`/`KnifeWeapon::attack` overrides that would do so are
never invoked for melee), so `m_lastAttackTime` stays 0. -/
theorem melee_success_leaves_cooldown_unreset :
    engineFist.player1.weapon.canAttack 100000 = true ∧
    engineFist.player1.position.distSqTo engineFist.player2.position ≤
      engineFist.player1.weapon.getAttackRange ^ 2 ∧
    (engineFist.player1.facingRight = true ∧
      engineFist.player2.position.x > engineFist.player1.position.x) ∧
    engineFist.player2.isInvisible = false ∧
    engineFist1.player2.hp =
      engineFist.player2.hp - GameConfig.FIST_DAMAGE ∧
    engineFist1.player1.weapon.lastAttackTime =
      engineFist.player1.weapon.lastAttackTime := by
  norm_num [engineFist1, engineFist, engine0,
    GameEngine.initEngine, GameEngine.createPlatforms,
    GameEngine.handlePlayerAttack, GameEngine.setPlayer, Player.mk',
    Player.attack, Player.takeDamage, Weapon.mk', Weapon.canAttack,
    Weapon.hasAmmo, Weapon.getAttackRange, Vector2D.distSqTo,
    Vector2D.sub, Vector2D.lengthSquared, Player.isInvisible,
    Player.width, Player.height, GameConfig.PLAYER_MAX_HP,
    GameConfig.FIST_DAMAGE, GameConfig.FIST_COOLDOWN,
    GameConfig.GROUND_LEVEL, GameConfig.PLAYER_HEIGHT,
    GameConfig.PLAYER_WIDTH]

end QtGame
